import Mathlib

/-!
Verification development for the Local-Ai repository (context-budget and
orchestration engine).  The Python source in `src/app` is shallowly embedded:
pure functions become Lean functions, network calls (LM Studio backend,
vision endpoint) and the stdlib JSON text decoder become explicit oracle
parameters, database writes become an explicit list of operations, and the
SQLite store becomes an explicit state value.  Python `int`/`len` arithmetic
is modelled with `Nat`; the float configuration ratio
`context_prompt_budget_ratio` is modelled as an explicit fraction
(numerator/denominator) whose `Nat`-floor matches `int(window * ratio)`.
-/

namespace LocalAi

/-- Minimal JSON value AST used to model Python dict/list payloads exchanged
with the backend (`resp.json()` results, tool-call structures).  Numbers are
modelled as `Int`; the textual JSON decoder (`json.loads`) is an oracle
parameter `String → Option Json` wherever the source parses text. -/
inductive Json where
  | null : Json
  | bool (b : Bool) : Json
  | num (n : Int) : Json
  | str (s : String) : Json
  | arr (xs : List Json) : Json
  | obj (fields : List (String × Json)) : Json
deriving Repr, Inhabited

/-- Python `d.get(key)` on a dict: association-list lookup (first match). -/
def jGet (j : Json) (key : String) : Option Json :=
  match j with
  | .obj fields => (fields.find? (fun p => p.1 = key)).map (fun p => p.2)
  | _ => none

/-- Python `xs[i]` on a list, returning `none` where Python raises
(`IndexError`, or `TypeError` on a non-list). -/
def jIdx (j : Json) (i : Nat) : Option Json :=
  match j with
  | .arr xs => xs[i]?
  | _ => none

/-- Python truthiness test (`if not v`) for JSON values. -/
def jFalsy : Json → Bool
  | .null => true
  | .bool b => !b
  | .num n => n == 0
  | .str s => s == ""
  | .arr xs => xs.isEmpty
  | .obj fields => fields.isEmpty

/-- Escape one character for JSON string output (`json.dumps` with
`ensure_ascii=False`; only the mandatory escapes are modelled). -/
def escChar : Char → String
  | '"' => "\\\""
  | '\\' => "\\\\"
  | '\n' => "\\n"
  | c => String.singleton c

/-- Escape a string for JSON output. -/
def escapeJson (s : String) : String :=
  s.foldl (fun acc c => acc ++ escChar c) ""

/-- Serialisation of the JSON AST, modelling
`json.dumps(v, ensure_ascii=False)` (default separators). -/
def dumpJson : Json → String
  | .null => "null"
  | .bool true => "true"
  | .bool false => "false"
  | .num n => toString n
  | .str s => "\"" ++ escapeJson s ++ "\""
  | .arr xs => "[" ++ String.intercalate ", " (xs.attach.map (fun x => dumpJson x.1)) ++ "]"
  | .obj fields =>
      "\x7b" ++
        String.intercalate ", "
          (fields.attach.map (fun p => "\"" ++ escapeJson p.1.1 ++ "\": " ++ dumpJson p.1.2)) ++
      "\x7d"
decreasing_by
  · have h := List.sizeOf_lt_of_mem x.2; simp at h ⊢; omega
  · obtain ⟨⟨k, v⟩, hmem⟩ := p
    have h := List.sizeOf_lt_of_mem hmem
    simp at h ⊢
    omega

/-- A chat message as assembled by the service (`{"role": ..., "content": ...}`;
tool messages additionally carry a `"name"` field). -/
structure Msg where
  role : String
  content : String
  name : Option String := none
deriving Repr, DecidableEq, Inhabited

/-- Python `s.strip()` (no arguments): remove leading and trailing
whitespace.  Defined over the character list so that it evaluates inside the
kernel. -/
def pyStrip (s : String) : String :=
  String.mk (((s.data.dropWhile Char.isWhitespace).reverse.dropWhile Char.isWhitespace).reverse)

/-- Model of `estimate_tokens` from `service.py` (fallback definition, which is the one
in effect: `app/utils_tokens.py` does not exist in the repository):
`max(1, int(len(text)/4)+1)`. -/
def estimate_tokens (text : String) : Nat :=
  max 1 (text.length / 4 + 1)

/-- Per-message cost inside `estimate_messages_tokens`:
`max(1, int(len(c)/4)+2)`.  The multimodal-parts flattening branch is not
modelled: every message built by `build_context`/`respond` has a flat string
content. -/
def estimateMsgTokens (m : Msg) : Nat :=
  max 1 (m.content.length / 4 + 2)

/-- Model of `estimate_messages_tokens` from `service.py` (fallback definition). -/
def estimate_messages_tokens (ms : List Msg) : Nat :=
  (ms.map estimateMsgTokens).sum

/-- The relevant fields of `config.Settings`.  The float
`context_prompt_budget_ratio` is modelled as the fraction
`budgetNum / budgetDen` (default 6/10 for 0.6). -/
structure Settings where
  maxContextMessages : Nat
  summarizeAfterMessages : Nat
  contextWindowTokens : Nat
  budgetNum : Nat
  budgetDen : Nat
  hysteresisTokens : Nat
deriving Repr, DecidableEq

/-- The default settings of `config.Settings`. -/
def defaultSettings : Settings :=
  { maxContextMessages := 20
    summarizeAfterMessages := 100
    contextWindowTokens := 32768
    budgetNum := 6
    budgetDen := 10
    hysteresisTokens := 1024 }

/-- Model of `_apply_budget`: `int(context_window_tokens * context_prompt_budget_ratio)`
(the argument is unused in the source as well). -/
def applyBudget (s : Settings) : Nat :=
  s.contextWindowTokens * s.budgetNum / s.budgetDen

/-- The snapshot of the store that `build_context`/`_fold_history` read for one
thread: the `user.name` profile value, the thread summary, and the thread's
messages in chronological (insertion) order. -/
structure DbState where
  uname : Option String
  summary : Option String
  messages : List Msg
deriving Repr, DecidableEq

/-- The `SYSTEM_PROMPT` constant from `service.py`. -/
def SYSTEM_PROMPT : String :=
  "You are a helpful assistant. Be concise. If you need to deliberate or outline steps, put ALL of that inside <think>…</think> and write the final answer after the tag."

/-- The last `k` stored messages in chronological order: the source fetches
`get_thread_messages(thread_id, k)` (latest first) and reverses. -/
def lastK (ms : List Msg) (k : Nat) : List Msg :=
  (ms.reverse.take k).reverse

/-- Model of `LocalResponsesService.build_context`. -/
def build_context (st : DbState) (k : Nat) : List Msg :=
  [⟨"system", SYSTEM_PROMPT, none⟩]
  ++ (match st.uname with
      | some u => [⟨"system", s!"Факты о пользователе: имя = {u}.", none⟩]
      | none => [])
  ++ (match st.summary with
      | some sm => [⟨"system", s!"Thread summary: {sm}", none⟩]
      | none => [])
  ++ lastK st.messages k

/-- Database write operations issued by the service, in program order. -/
inductive DbOp where
  | insertMessage (threadId role content msgId : String) : DbOp
  | insertResponse (respId threadId requestMsgId status : String) : DbOp
  | updateResponseOutput (respId outputMsgId status : String) : DbOp
  | upsertSummary (threadId content : String) : DbOp
  | upsertProfile (key value : String) : DbOp
deriving Repr, DecidableEq

/-- The `"{role}: {content}"` lines built by `_fold_history` (tool messages
excluded, contents stripped, empty contents skipped). -/
def foldLines (ms : List Msg) : List String :=
  ms.filterMap (fun m =>
    if m.role = "tool" then none
    else
      let c := pyStrip m.content
      if c = "" then none else some (let r := m.role; s!"{r}: {c}"))

/-- Model of `LocalResponsesService._fold_history`.  The backend call
`self._llm.chat(messages)` is the oracle `reply` (`.ok text` for a reply,
`.error e` for a raised exception).  Returns the updated store snapshot and
the database writes performed.  Note that the backend reply is upserted
unchanged — this path has no length cap. -/
def fold_history (tid : String) (st : DbState) (reply : Except String String) :
    DbState × List DbOp :=
  let convoText := String.intercalate "\n" (foldLines (lastK st.messages 5000))
  if convoText = "" then (st, [])
  else
    match reply with
    | .error _ => (st, [])
    | .ok summary => ({ st with summary := some summary }, [.upsertSummary tid summary])

/-- Python `s[:n]` on a string. -/
def strTake (s : String) (n : Nat) : String :=
  String.mk (s.data.take n)

/-- Python `s[n:]` on a string. -/
def strDrop (s : String) (n : Nat) : String :=
  String.mk (s.data.drop n)

/-- Python `s.startswith(pre)`. -/
def pyStartsWith (s pre : String) : Bool :=
  pre.data.isPrefixOf s.data

/-- The `"[{role}] {content}"` conversation log built by
`summarizer.summarize` (tool messages excluded, contents stripped, empty
contents skipped, last 500 messages). -/
def summarizeConvo (st : DbState) : String :=
  String.intercalate "\n"
    ((lastK st.messages 500).filterMap (fun m =>
      if m.role = "tool" then none
      else
        let c := pyStrip m.content
        if c = "" then none else some (let r := m.role; s!"[{r}] {c}")))

/-- Model of `summarizer.summarize`.  The backend call is the oracle `reply`.  On a
backend failure the source falls back to the truncated conversation log and
still upserts it; every stored value is hard-capped at 1000 characters.
Returns (updated snapshot, stored summary text, database writes). -/
def summarizeRun (tid : String) (st : DbState) (reply : Except String String) :
    DbState × String × List DbOp :=
  let convo := summarizeConvo st
  let summary0 :=
    match reply with
    | .ok s => s
    | .error _ => if 1000 < convo.length then strTake convo 980 ++ "..." else convo
  let summary1 := if 1000 < summary0.length then strTake summary0 997 ++ "..." else summary0
  ({ st with summary := some summary1 }, summary1, [.upsertSummary tid summary1])

/-- One-step body of the `while used > budget and k > 1` trimming loop of
`_ensure_budget`, encoded with a structural fuel argument: each iteration
strictly decreases `k` (`k ← max(1, int(k * 0.7))`, modelled as the
`Nat`-floor `max 1 (k * 7 / 10)`), so `k` iterations always suffice and the
fuel supplied by `shrinkLoop` is never exhausted
(`shrinkGo_spec` does not depend on the fuel beyond `k ≤ fuel`). -/
def shrinkGo (st : DbState) (budget : Nat) :
    Nat → List Msg → Nat → Nat → List Msg × Nat × Nat
  | 0, chat, used, k => (chat, used, k)
  | fuel + 1, chat, used, k =>
    if budget < used ∧ 1 < k then
      let k2 := max 1 (k * 7 / 10)
      let chat2 := build_context st k2
      shrinkGo st budget fuel chat2 (estimate_messages_tokens chat2) k2
    else
      (chat, used, k)

/-- The `while used > budget and k > 1` trimming loop of `_ensure_budget`:
`k ← max(1, int(k * 0.7))`, rebuild, recompute.  Returns
(chat, used, final k). -/
def shrinkLoop (st : DbState) (budget : Nat) (chat : List Msg) (used k : Nat) :
    List Msg × Nat × Nat :=
  shrinkGo st budget k chat used k

/-- The outcome of `_ensure_budget`: the assembled chat list, its token
estimate, the final `k`, how many times `_fold_history` was invoked, the
pre-fold token estimate, the resulting store snapshot, and the database
writes performed. -/
structure BudgetResult where
  chat : List Msg
  used : Nat
  kFinal : Nat
  foldCalls : Nat
  usedPre : Nat
  st : DbState
  ops : List DbOp
deriving Repr

/-- Model of `LocalResponsesService._ensure_budget`.  The backend call inside the fold
is the oracle `foldReply`.  The operation is total: overflow never raises. -/
def ensure_budget (s : Settings) (tid : String) (st0 : DbState)
    (foldReply : Except String String) : BudgetResult :=
  let chat0 := build_context st0 s.maxContextMessages
  let used0 := estimate_messages_tokens chat0
  let budget := applyBudget s
  if budget + s.hysteresisTokens < used0 then
    let f := fold_history tid st0 foldReply
    let chat1 := build_context f.1 s.maxContextMessages
    let used1 := estimate_messages_tokens chat1
    if budget < used1 then
      let r := shrinkLoop f.1 budget chat1 used1 s.maxContextMessages
      ⟨r.1, r.2.1, r.2.2, 1, used0, f.1, f.2⟩
    else
      ⟨chat1, used1, s.maxContextMessages, 1, used0, f.1, f.2⟩
  else
    if budget < used0 then
      let r := shrinkLoop st0 budget chat0 used0 s.maxContextMessages
      ⟨r.1, r.2.1, r.2.2, 0, used0, st0, []⟩
    else
      ⟨chat0, used0, s.maxContextMessages, 0, used0, st0, []⟩

/-! ### LLMClient: SSE stream decoding, `chat_stream`, `_post_json_with_retries` -/

/-- Extraction of a string content field (`.get("content")` followed by
`or ""`): `None`, a missing key or an empty string all give `""`.
Non-string contents (which the source would pass through raw) are outside
the modelled payloads and also map to `""`. -/
def contentString (v : Option Json) : String :=
  match v with
  | some (.str s) => s
  | _ => ""

/-- Delta extraction of `chat_stream`:
`obj["choices"][0]["delta"].get("content") or ""`, falling back to
`obj["choices"][0]["message"].get("content") or ""` when the first chain
raises, and `""` when both raise. -/
def extractDelta (obj : Json) : String :=
  match ((jGet obj "choices").bind (fun c => jIdx c 0)).bind (fun c0 => jGet c0 "delta") with
  | some (.obj dfields) => contentString (jGet (.obj dfields) "content")
  | _ =>
    match ((jGet obj "choices").bind (fun c => jIdx c 0)).bind (fun c0 => jGet c0 "message") with
    | some (.obj mfields) => contentString (jGet (.obj mfields) "content")
    | _ => ""

/-- What one SSE line contributes in `chat_stream`'s inner loop. -/
inductive LineResult where
  | skip : LineResult
  | terminal : LineResult
  | piece (s : String) : LineResult
deriving Repr

/-- Processing of one line (already split by `chunk.splitlines()`): strip,
require the `data: ` prefix, stop at `[DONE]`, decode JSON via the oracle
`loads` (malformed events are skipped) and extract the delta. -/
def processLine (loads : String → Option Json) (line : String) : LineResult :=
  let l := pyStrip line
  if l = "" then .skip
  else if !(pyStartsWith l "data: ") then .skip
  else
    let d := strDrop l 6
    if d = "[DONE]" then .terminal
    else
      match loads d with
      | none => .skip
      | some obj =>
        let dl := extractDelta obj
        if dl = "" then .skip else .piece dl

/-- Processing of a sequence of lines: collects the yielded deltas in order
and reports whether a `[DONE]` sentinel terminated the generator (lines after
the sentinel are never read). -/
def processLines (loads : String → Option Json) : List String → List String × Bool
  | [] => ([], false)
  | l :: rest =>
    match processLine loads l with
    | .skip => processLines loads rest
    | .terminal => ([], true)
    | .piece d =>
      let r := processLines loads rest
      (d :: r.1, r.2)

/-- Outcome of one streaming attempt, as seen by the `for attempt` loop of
`chat_stream`.  A chunk is its list of lines. -/
inductive AttemptResult where
  | connFail : AttemptResult
  | streamFail (chunks : List (List String)) : AttemptResult
  | streamOk (chunks : List (List String)) : AttemptResult
deriving DecidableEq

/-- The `for attempt in range(1, 4)` loop of `chat_stream`, over the list of
remaining attempt outcomes (`attempt >= 3` in the source corresponds to an
empty remainder).  `connFail` is a network error before any chunk;
`streamFail cs` delivers the chunks `cs` and then raises mid-stream;
`streamOk cs` delivers `cs` and ends the body normally.  Because the `try`
block spans the whole iteration, a mid-stream failure on attempts 1–2
re-issues the request; deltas already yielded by the generator remain
delivered.  Returns (all yielded deltas in order, whether the generator ends
by raising the last error). -/
def chat_streamGo (loads : String → Option Json) (acc : List String) :
    List AttemptResult → List String × Bool
  | [] => (acc, true)
  | a :: rest =>
    match a with
    | .connFail =>
        if rest.isEmpty then (acc, true) else chat_streamGo loads acc rest
    | .streamFail chunks =>
        let r := processLines loads chunks.flatten
        if r.2 then (acc ++ r.1, false)
        else if rest.isEmpty then (acc ++ r.1, true)
        else chat_streamGo loads (acc ++ r.1) rest
    | .streamOk chunks =>
        let r := processLines loads chunks.flatten
        (acc ++ r.1, false)

/-- Model of `LLMClient.chat_stream` as experienced by a consumer of the async
generator: the `for attempt in range(1, 4)` loop over the three attempt
outcomes. -/
def chat_stream (loads : String → Option Json) (sched : Nat → AttemptResult) :
    List String × Bool :=
  chat_streamGo loads [] [sched 1, sched 2, sched 3]

/-- The retry loop of `LLMClient._post_json_with_retries` with
`max_retries = 3` (the only value used), over the list of remaining attempt
outcomes (`.ok` parsed JSON, `.error` a raised network/timeout/HTTP-status
exception; `attempt >= max_retries` corresponds to an empty remainder). -/
def postJsonGo : List (Except String Json) → Except String Json
  | [] => .error "unreachable: no attempts"
  | o :: rest =>
    match o with
    | .ok d => .ok d
    | .error e => if rest.isEmpty then .error e else postJsonGo rest

/-- Model of `_post_json_with_retries(url, payload)` — three attempts. -/
def post_json_with_retries (sched : Nat → Except String Json) : Except String Json :=
  postJsonGo [sched 1, sched 2, sched 3]

/-! ### Tooling: `maybe_call_one_tool` -/

/-- Python `str(v)` as used for `str(fn.get("name", ""))`.  The rendering of
composite values is abbreviated: it is only compared against registered tool
names, and a real `str()` of a list/dict starts with a bracket/brace, so it
can never equal a registered name; the model keeps that property. -/
def pyStr : Json → String
  | .null => "None"
  | .bool true => "True"
  | .bool false => "False"
  | .num n => toString n
  | .str s => s
  | .arr _ => "[…]"
  | .obj _ => "\x7b…\x7d"

/-- The guarded extraction
`probe_raw.get("choices", [{}])[0].get("message", {}).get("tool_calls")`
wrapped in `try/except` — every raised exception, a missing key and an
explicit `null` all yield `none`. -/
def extractToolCalls (probe : Json) : Option Json :=
  match probe with
  | .obj _ =>
    let choices := (jGet probe "choices").getD (.arr [.obj []])
    match jIdx choices 0 with
    | none => none
    | some c0 =>
      match c0 with
      | .obj _ =>
        match (jGet c0 "message").getD (.obj []) with
        | .obj mfields =>
          match jGet (.obj mfields) "tool_calls" with
          | some .null => none
          | v => v
        | _ => none
      | _ => none
  | _ => none

/-- The `arguments` decoding of `maybe_call_one_tool`: a string is decoded
with the JSON oracle (`{}` when it fails to parse — and kept as decoded even
when the decoded value is not a dict); a dict is used as is; anything else
becomes `{}`. -/
def toolArgsVal (loads : String → Option Json) (arguments : Option Json) : Json :=
  match arguments with
  | some (.str s) => (loads s).getD (.obj [])
  | some (.obj fs) => .obj fs
  | some _ => .obj []
  | none => .obj []

/-- The tool result serialised into the appended message: the invocation
outcome on a dict argument set, `{"error": str(e)}` on a raised invocation
or validation error, and likewise for the `TypeError` raised by `**`-
unpacking a non-dict decoded argument value. -/
def toolCallResult (invokeVision : List (String × Json) → Except String Json)
    (argsVal : Json) : Json :=
  match argsVal with
  | .obj fs =>
    match invokeVision fs with
    | .ok r => r
    | .error e => .obj [("error", .str e)]
  | _ => .obj [("error", .str "TypeError: arguments must be a mapping")]

/-- Model of `tooling.maybe_call_one_tool`.  `loads` is the stdlib JSON decoder;
`invokeVision` is the network-backed `VisionDescribeTool.invoke` (validation
and HTTP call), as an oracle returning the result dict or a raised
exception's text.  `vision_describe` is the only registered tool
(`list_tools`).  The `.error` results model the uncaught `TypeError` /
`AttributeError` that the source raises when a truthy `tool_calls` value is
not a list of call objects (those accesses sit outside any `try`). -/
def maybe_call_one_tool (loads : String → Option Json)
    (invokeVision : List (String × Json) → Except String Json)
    (messages : List Msg) (probe : Json) : Except String (List Msg × Bool) :=
  match extractToolCalls probe with
  | none => .ok (messages, false)
  | some tcv =>
    if jFalsy tcv then .ok (messages, false)
    else
      match tcv with
      | .arr (c :: _) =>
        match c with
        | .obj _ =>
          match (jGet c "function").getD (.obj []) with
          | .obj ffields =>
            let fn : Json := .obj ffields
            let name :=
              match jGet fn "name" with
              | some v => pyStr v
              | none => ""
            let argsVal := toolArgsVal loads (jGet fn "arguments")
            if name = "vision_describe" then
              let result := toolCallResult invokeVision argsVal
              .ok (messages ++ [⟨"tool", dumpJson result, some name⟩], true)
            else .ok (messages, false)
          | _ => .error "AttributeError"
        | _ => .error "AttributeError"
      | _ => .error "TypeError"

/-! ### Orchestration: `respond`, `respond_stream`, `post_responses` -/

/-- The usage triple computed by `_run_stream_collect` / `respond_stream`. -/
structure Usage where
  promptTokens : Nat
  completionTokens : Nat
  totalTokens : Nat
deriving Repr, DecidableEq

/-- Per-turn identifiers and request fields of `respond`.  `threadId` is the
result of `resolve_thread`; the `uuid4` values minted for the user message,
the assistant message and the response row are inputs of the model. -/
structure RespondInput where
  threadId : String
  userText : String
  store : Bool
  userMsgId : String
  assistantMsgId : String
  respId : String

/-- The oracles a turn consumes: the result of the memory regex
(`MEMORY_NAME_RE` match, normalisation and 80-character cap applied — its
value or `none`), the fold backend call, the JSON decoder, the streaming
attempt schedule, the `COUNT(1)` of the thread's messages read after the
turn, and the backend call of the closing `summarizer.summarize`. -/
structure TurnOracles where
  memoryValue : Option String
  foldReply : Except String String
  loads : String → Option Json
  sched : Nat → AttemptResult
  msgCount : Nat
  summReply : Except String String

/-- What one call of `LocalResponsesService.respond` produces: the database
writes in program order, the message list of every gateway request issued,
and the returned tuple (or the exception that escaped). -/
structure TurnOutcome where
  ops : List DbOp
  gatewayRequests : List (List Msg)
  result : Except String (String × String × String × Usage)

/-- Model of `LocalResponsesService.respond`.  The single LLM interaction is one
`chat_stream` consumption (`_run_stream_collect`); no probe for tool calls
is made and `maybe_call_one_tool` is never invoked on this path.  When the
stream raises, the exception escapes before the assistant message and the
response row are written. -/
def respondModel (s : Settings) (st0 : DbState) (inp : RespondInput)
    (orc : TurnOracles) : TurnOutcome :=
  let memOps : List DbOp :=
    match orc.memoryValue with
    | some v => [.upsertProfile "user.name" v]
    | none => []
  let st1 : DbState :=
    if inp.store then { st0 with messages := st0.messages ++ [⟨"user", inp.userText, none⟩] }
    else st0
  let userOps : List DbOp :=
    if inp.store then [.insertMessage inp.threadId "user" inp.userText inp.userMsgId] else []
  let br := ensure_budget s inp.threadId st1 orc.foldReply
  let chat := br.chat ++ [⟨"user", inp.userText, none⟩]
  let stream := chat_stream orc.loads orc.sched
  if stream.2 then
    { ops := memOps ++ userOps ++ br.ops
      gatewayRequests := [chat]
      result := .error "llm stream failed" }
  else
    let fullRaw := pyStrip (String.join stream.1)
    let usage : Usage :=
      ⟨estimate_messages_tokens chat, estimate_tokens fullRaw,
        estimate_messages_tokens chat + estimate_tokens fullRaw⟩
    let st2 : DbState :=
      if inp.store then { br.st with messages := br.st.messages ++ [⟨"assistant", fullRaw, none⟩] }
      else br.st
    let assistantOps : List DbOp :=
      if inp.store then [.insertMessage inp.threadId "assistant" fullRaw inp.assistantMsgId] else []
    let respOps : List DbOp :=
      [.insertResponse inp.respId inp.threadId inp.userMsgId "completed",
       .updateResponseOutput inp.respId inp.assistantMsgId "completed"]
    let sumOps : List DbOp :=
      if s.summarizeAfterMessages ≤ orc.msgCount ∧ inp.store then
        (summarizeRun inp.threadId st2 orc.summReply).2.2
      else []
    { ops := memOps ++ userOps ++ br.ops ++ assistantOps ++ respOps ++ sumOps
      gatewayRequests := [chat]
      result := .ok (inp.userMsgId, inp.respId, fullRaw, usage) }

/-- Frames emitted by `respond_stream`. -/
inductive StreamFrame where
  | start (responseId threadId : String) : StreamFrame
  | piece (text : String) : StreamFrame
  | finish (usage : Usage) : StreamFrame
deriving Repr, DecidableEq

/-- What one call of `LocalResponsesService.respond_stream` produces. -/
structure StreamTurn where
  ops : List DbOp
  frames : List StreamFrame
  gatewayRequests : List (List Msg)
  failed : Bool

/-- Model of `LocalResponsesService.respond_stream`.  The user message is always
persisted (the `store` flag is not consulted for inserts on this path);
`wsResponseId` is the `uuid4` yielded in the `start` frame — it is NOT the id
of the inserted response row, which mints its own id `dbRespId`; and no
`update_response_output` call is ever made, so the response row keeps a null
`response_message_id`. -/
def respondStreamModel (s : Settings) (st0 : DbState) (inp : RespondInput)
    (wsResponseId dbRespId : String) (orc : TurnOracles) : StreamTurn :=
  let memOps : List DbOp :=
    match orc.memoryValue with
    | some v => [.upsertProfile "user.name" v]
    | none => []
  let st1 : DbState := { st0 with messages := st0.messages ++ [⟨"user", inp.userText, none⟩] }
  let userOps : List DbOp := [.insertMessage inp.threadId "user" inp.userText inp.userMsgId]
  let br := ensure_budget s inp.threadId st1 orc.foldReply
  let chat := br.chat ++ [⟨"user", inp.userText, none⟩]
  let stream := chat_stream orc.loads orc.sched
  let startFrames : List StreamFrame := [.start wsResponseId inp.threadId]
  if stream.2 then
    { ops := memOps ++ userOps ++ br.ops
      frames := startFrames ++ stream.1.map .piece
      gatewayRequests := [chat]
      failed := true }
  else
    let rawAcc := String.join stream.1
    let usage : Usage :=
      ⟨estimate_messages_tokens chat, estimate_tokens rawAcc,
        estimate_messages_tokens chat + estimate_tokens rawAcc⟩
    { ops := memOps ++ userOps ++ br.ops ++
        [.insertMessage inp.threadId "assistant" rawAcc inp.assistantMsgId,
         .insertResponse dbRespId inp.threadId inp.userMsgId "completed"]
      frames := startFrames ++ stream.1.map .piece ++ [.finish usage]
      gatewayRequests := [chat]
      failed := false }

/-- The error payload of `POST /responses` (`HTTPException` detail). -/
structure ErrorDetail where
  error : String
  traceId : String
  responseId : Option String
deriving Repr, DecidableEq

/-- The success payload of `POST /responses`. -/
structure ResponsePayload where
  responseId : String
  threadId : String
  outputText : String
  status : String
  usage : Usage
deriving Repr, DecidableEq

/-- Model of `api.post_responses`: on success the completed payload; on an exception
from `service.respond`, a 500 detail `{error, trace_id}` — `resp_id` is still
`None` (the tuple assignment never happened), so no `response_id` key is
included. -/
def post_responses (turn : TurnOutcome) (traceId threadId : String) :
    Except ErrorDetail ResponsePayload :=
  match turn.result with
  | .ok (_userMsgId, rid, text, usage) => .ok ⟨rid, threadId, text, "completed", usage⟩
  | .error _ => .error ⟨"internal error", traceId, none⟩

/-! ### Store: message round-trip (`insert_message` / `get_thread_messages`) -/

/-- A row of the `messages` table.  `createdAt` models the `time.time()`
stamp (as an abstract tick count); rows are listed in insertion order. -/
structure MsgRow where
  id : String
  threadId : String
  role : String
  content : String
  createdAt : Nat
deriving Repr, DecidableEq

/-- The descending `created_at` comparison used by
`ORDER BY created_at DESC`. -/
def createdDesc (a b : MsgRow) : Prop :=
  b.createdAt ≤ a.createdAt

instance : DecidableRel createdDesc := fun a b => Nat.decLe b.createdAt a.createdAt

instance : IsTotal MsgRow createdDesc :=
  ⟨fun a b => Nat.le_total b.createdAt a.createdAt⟩

instance : IsTrans MsgRow createdDesc :=
  ⟨fun _ _ _ h1 h2 => Nat.le_trans h2 h1⟩

/-- Model of `Database.get_thread_messages(thread_id, limit)`:
`SELECT ... WHERE thread_id = ? ORDER BY created_at DESC LIMIT ?`.
SQLite leaves the relative order of equal `created_at` values unspecified;
the model resolves it as a stable sort of the table scan (insertion) order. -/
def get_thread_messages (table : List MsgRow) (tid : String) (limit : Nat) : List MsgRow :=
  ((table.filter (fun r => r.threadId = tid)).insertionSort createdDesc).take limit

/-- The chronological read-back used by the API route and `build_context`:
`list(reversed(get_thread_messages(...)))`. -/
def readBack (table : List MsgRow) (tid : String) (limit : Nat) : List MsgRow :=
  (get_thread_messages table tid limit).reverse

/-! ### Store: the `responses` table -/

/-- A row of the `responses` table (the columns relevant to the output
reference invariant).  `insert_response` always writes
`response_message_id = NULL`. -/
structure ResponseRow where
  id : String
  threadId : String
  requestMessageId : String
  status : String
  responseMessageId : Option String
deriving Repr, DecidableEq

/-- Effect of one database write on the `responses` table
(`insert_response` and `update_response_output`; other writes touch other
tables). -/
def applyResponseOp (rows : List ResponseRow) : DbOp → List ResponseRow
  | .insertResponse rid tid reqId status => rows ++ [⟨rid, tid, reqId, status, none⟩]
  | .updateResponseOutput rid out status =>
      rows.map (fun r =>
        if r.id = rid then { r with responseMessageId := some out, status := status } else r)
  | _ => rows

/-- The `responses` table produced by a sequence of writes on an empty
table. -/
def replayResponses (ops : List DbOp) : List ResponseRow :=
  ops.foldl applyResponseOp []

/-- Whether a write touches the `responses` table. -/
def isResponseOp : DbOp → Bool
  | .insertResponse .. => true
  | .updateResponseOutput .. => true
  | _ => false

/-- Whether a write inserts a message with the given role. -/
def isRoleInsert (role : String) : DbOp → Bool
  | .insertMessage _ r _ _ => r == role
  | _ => false

/-! ### Helper lemmas -/

/-- A concrete all-`'a'` string of length `n`, used for concrete inputs. -/
def mkA (n : Nat) : String :=
  String.mk (List.replicate n 'a')

theorem length_mk (l : List Char) : (String.mk l).length = l.length := rfl

theorem length_append' (a b : String) : (a ++ b).length = a.length + b.length := by
  cases a with
  | mk l1 =>
    cases b with
    | mk l2 =>
      show (l1 ++ l2).length = l1.length + l2.length
      exact List.length_append l1 l2

theorem strTake_length (s : String) (n : Nat) : (strTake s n).length = min n s.length := by
  show (s.data.take n).length = min n s.data.length
  exact List.length_take n s.data

/-- Invariant of the trimming loop: provided enough fuel (`k ≤ fuel`; the
loop strictly decreases `k`, so this is preserved), the loop returns a pair
whose token count is the estimate of its chat list, and on exit either the
budget is met or `k` has reached the floor 1. -/
theorem shrinkGo_spec (st : DbState) (budget : Nat) :
    ∀ (fuel : Nat) (chat : List Msg) (used k : Nat),
      k ≤ fuel → 1 ≤ k → used = estimate_messages_tokens chat →
      (shrinkGo st budget fuel chat used k).2.1 =
          estimate_messages_tokens (shrinkGo st budget fuel chat used k).1 ∧
        ((shrinkGo st budget fuel chat used k).2.1 ≤ budget ∨
          (shrinkGo st budget fuel chat used k).2.2 = 1) := by
  intro fuel
  induction fuel with
  | zero => intro chat used k hfuel hk _; omega
  | succ fuel ih =>
    intro chat used k hfuel hk hused
    rw [shrinkGo]
    split
    · next h =>
      have hlt : max 1 (k * 7 / 10) < k := by
        have h7 : k * 7 / 10 < k :=
          (Nat.div_lt_iff_lt_mul (by norm_num)).mpr (by omega)
        exact Nat.max_lt.mpr ⟨h.2, h7⟩
      dsimp only
      exact ih _ _ _ (by omega) (Nat.le_max_left _ _) rfl
    · next h =>
      dsimp only
      exact ⟨hused, by omega⟩

theorem shrinkLoop_spec (st : DbState) (budget : Nat) (chat : List Msg) (used k : Nat)
    (hk : 1 ≤ k) (hused : used = estimate_messages_tokens chat) :
    (shrinkLoop st budget chat used k).2.1 =
        estimate_messages_tokens (shrinkLoop st budget chat used k).1 ∧
      ((shrinkLoop st budget chat used k).2.1 ≤ budget ∨
        (shrinkLoop st budget chat used k).2.2 = 1) :=
  shrinkGo_spec st budget k chat used k le_rfl hk hused

/-- The fold of `_fold_history` issues either no write or exactly one
summary upsert for the thread. -/
theorem fold_history_ops (tid : String) (st : DbState) (reply : Except String String) :
    (fold_history tid st reply).2 = [] ∨
      ∃ c, (fold_history tid st reply).2 = [DbOp.upsertSummary tid c] := by
  simp only [fold_history]
  split
  · exact Or.inl rfl
  · split
    · exact Or.inl rfl
    · exact Or.inr ⟨_, rfl⟩

/-- The function `_ensure_budget` issues either no write or exactly one summary upsert. -/
theorem ensure_budget_ops (s : Settings) (tid : String) (st : DbState)
    (reply : Except String String) :
    (ensure_budget s tid st reply).ops = [] ∨
      ∃ c, (ensure_budget s tid st reply).ops = [DbOp.upsertSummary tid c] := by
  simp only [ensure_budget]
  split
  · split <;> exact fold_history_ops tid st reply
  · split <;> exact Or.inl rfl

/-! ### Claim theorems -/

/-- C1: For every thread state and every token budget
B = context_window_tokens × context_prompt_budget_ratio, when
`_ensure_budget` returns, the estimated token count of the returned context
list is ≤ B, or the final shrink factor K equals 1 (the floor reached via
`K ← max(1, floor(K × 0.7))` iterations); the embedded operation is a total
function, so overflow never raises. -/
theorem C1_ensure_budget_disjunction (s : Settings) (tid : String) (st : DbState)
    (reply : Except String String) (hk : 1 ≤ s.maxContextMessages) :
    estimate_messages_tokens (ensure_budget s tid st reply).chat ≤ applyBudget s ∨
      (ensure_budget s tid st reply).kFinal = 1 := by
  simp only [ensure_budget]
  split
  · split
    · dsimp only
      obtain ⟨h1, h2⟩ :=
        shrinkLoop_spec (fold_history tid st reply).1 (applyBudget s)
          (build_context (fold_history tid st reply).1 s.maxContextMessages)
          (estimate_messages_tokens
            (build_context (fold_history tid st reply).1 s.maxContextMessages))
          s.maxContextMessages hk rfl
      rcases h2 with h2 | h2
      · exact Or.inl (h1 ▸ h2)
      · exact Or.inr h2
    · next h =>
      dsimp only
      exact Or.inl (by omega)
  · split
    · dsimp only
      obtain ⟨h1, h2⟩ :=
        shrinkLoop_spec st (applyBudget s)
          (build_context st s.maxContextMessages)
          (estimate_messages_tokens (build_context st s.maxContextMessages))
          s.maxContextMessages hk rfl
      rcases h2 with h2 | h2
      · exact Or.inl (h1 ▸ h2)
      · exact Or.inr h2
    · next h =>
      dsimp only
      exact Or.inl (by omega)

/-- Witness for C1: the default settings on an empty thread with a failing
fold backend. -/
theorem C1_ensure_budget_disjunction_witness :
    1 ≤ defaultSettings.maxContextMessages ∧
      (estimate_messages_tokens
          (ensure_budget defaultSettings "t" ⟨none, none, []⟩ (Except.error "down")).chat ≤
            applyBudget defaultSettings ∨
        (ensure_budget defaultSettings "t" ⟨none, none, []⟩ (Except.error "down")).kFinal = 1) :=
  ⟨by decide,
    C1_ensure_budget_disjunction defaultSettings "t" ⟨none, none, []⟩ (Except.error "down")
      (by decide)⟩

/-- Settings used for the C7 instances: K = 1, window 1024 tokens, prompt
budget ratio 0.1 (budget 102), hysteresis 0 — all within the validator
bounds of `config.Settings`. -/
def exSettings : Settings := ⟨1, 100, 1024, 1, 10, 0⟩

/-- Thread state used for the C7 instances: one stored user message of 240
characters (estimate 62), which together with the system prompt (estimate
43) exceeds budget + hysteresis. -/
def exThread : DbState := ⟨none, none, [⟨"user", mkA 240, none⟩]⟩

/-- C7 (amended): for every thread whose initially assembled context exceeds
budget + hysteresisTokens, exactly one fold call is made before the context
is re-assembled (and no fold call is made otherwise).  The monotonic
non-increase half of the original claim is refuted by
`C7_counterexample`: the fold adds or enlarges the summary line while the
last-K messages stay, so the re-assembled estimate can exceed the pre-fold
estimate. -/
theorem C7_exactly_one_fold (s : Settings) (tid : String) (st : DbState)
    (reply : Except String String) :
    (applyBudget s + s.hysteresisTokens <
        estimate_messages_tokens (build_context st s.maxContextMessages) →
      (ensure_budget s tid st reply).foldCalls = 1) ∧
    (¬ applyBudget s + s.hysteresisTokens <
        estimate_messages_tokens (build_context st s.maxContextMessages) →
      (ensure_budget s tid st reply).foldCalls = 0) := by
  refine ⟨fun h => ?_, fun h => ?_⟩
  · simp only [ensure_budget]
    rw [if_pos h]
    split <;> rfl
  · simp only [ensure_budget]
    rw [if_neg h]
    split <;> rfl

set_option maxRecDepth 4000 in
/-- Witness for C7: the over-budget thread `exThread` triggers exactly one
fold call. -/
theorem C7_exactly_one_fold_witness :
    applyBudget exSettings + exSettings.hysteresisTokens <
        estimate_messages_tokens (build_context exThread exSettings.maxContextMessages) ∧
      (ensure_budget exSettings "t" exThread (Except.ok "s")).foldCalls = 1 :=
  ⟨by decide, (C7_exactly_one_fold exSettings "t" exThread (Except.ok "s")).1 (by decide)⟩

set_option maxRecDepth 4000 in
/-- C7 counterexample: an over-budget thread (pre-fold estimate 105 >
budget 102 + hysteresis 0) whose fold stores a fresh summary; the final
assembled context then estimates 111 > 105, refuting the claimed monotonic
non-increase (`used ≤ pre-fold estimate`). -/
theorem C7_counterexample :
    applyBudget exSettings + exSettings.hysteresisTokens <
        (ensure_budget exSettings "t" exThread (Except.ok "s")).usedPre ∧
      (ensure_budget exSettings "t" exThread (Except.ok "s")).usedPre <
        (ensure_budget exSettings "t" exThread (Except.ok "s")).used ∧
      (ensure_budget exSettings "t" exThread (Except.ok "s")).used =
        estimate_messages_tokens (ensure_budget exSettings "t" exThread (Except.ok "s")).chat := by
  decide

/-- A capped truncation `if len > 1000 then s[:n] + "..." else s` never
exceeds 1000 characters when `n + 3 ≤ 1000`. -/
theorem capIf_le (t : String) (n : Nat) (hn : n + 3 ≤ 1000) :
    (if 1000 < t.length then strTake t n ++ "..." else t).length ≤ 1000 := by
  split
  · rw [length_append', strTake_length]
    have h3 : ("...").length = 3 := rfl
    have := Nat.min_le_left n t.length
    omega
  · next h => omega

/-- C3 (amended): every summary stored by `summarizer.summarize` is at most
1000 characters — a backend reply longer than the cap is hard-truncated to
`reply[:997] + "..."` before the upsert.  The budget-triggered fold path
(`_fold_history`) however upserts the backend reply unchanged, so it can
store summaries longer than 1000 characters (`C3_counterexample`). -/
theorem C3_summarize_is_capped (tid : String) (st : DbState) (s0 : String)
    (h : 1000 < s0.length) :
    (summarizeRun tid st (Except.ok s0)).2.1 = strTake s0 997 ++ "..." ∧
      (summarizeRun tid st (Except.ok s0)).1.summary = some (strTake s0 997 ++ "...") ∧
      (strTake s0 997 ++ "...").length = 1000 ∧
      ∀ (reply : Except String String), ((summarizeRun tid st reply).2.1).length ≤ 1000 := by
  have hlen : (strTake s0 997 ++ "...").length = 1000 := by
    rw [length_append', strTake_length]
    have h3 : ("...").length = 3 := rfl
    omega
  have hstored : (summarizeRun tid st (Except.ok s0)).2.1 = strTake s0 997 ++ "..." := by
    simp only [summarizeRun]
    rw [if_pos h]
  refine ⟨hstored, ?_, hlen, ?_⟩
  · show some ((summarizeRun tid st (Except.ok s0)).2.1) = _
    rw [hstored]
  · intro reply
    exact capIf_le _ 997 (by norm_num)

/-- Concrete thread for the C3 counterexample. -/
def stC3 : DbState := ⟨none, none, [⟨"user", "hi", none⟩]⟩

set_option maxRecDepth 8000 in
/-- C3 counterexample: `_fold_history` receiving a 1001-character backend
reply upserts it unchanged — the stored summary exceeds the 1000-character
cap, so not every upsert path hard-truncates. -/
theorem C3_counterexample :
    (fold_history "t" stC3 (Except.ok (mkA 1001))).1.summary = some (mkA 1001) ∧
      (fold_history "t" stC3 (Except.ok (mkA 1001))).2 = [DbOp.upsertSummary "t" (mkA 1001)] ∧
      1000 < (mkA 1001).length :=
  ⟨rfl, rfl, by decide⟩

/-- Witness for C3: a concrete 1001-character backend reply is stored as
exactly 1000 characters by `summarize`. -/
theorem C3_summarize_is_capped_witness :
    1000 < (mkA 1001).length ∧
      (summarizeRun "t" stC3 (Except.ok (mkA 1001))).2.1 = strTake (mkA 1001) 997 ++ "..." ∧
      (strTake (mkA 1001) 997 ++ "...").length = 1000 := by
  have h : 1000 < (mkA 1001).length := by
    set_option maxRecDepth 8000 in decide
  have c := C3_summarize_is_capped "t" stC3 (mkA 1001) h
  exact ⟨h, c.1, c.2.2.1⟩

/-- Concrete thread with a prior summary for the C4 instances. -/
def stC4 : DbState := ⟨none, some "old", [⟨"user", "hello", none⟩]⟩

set_option maxRecDepth 4000 in
/-- C4 (amended): if the backend call of `_fold_history` fails, the stored
summary (and the whole snapshot) is left exactly as before and no write is
issued, and the failure never aborts the enclosing turn; if the backend call
of `summarizer.summarize` fails, however, the prior summary is NOT retained:
the truncated conversation log is stored as a fallback
(`C4_counterexample`). -/
theorem C4_fold_failure_keeps_summary (tid : String) (st : DbState) (e : String) :
    (fold_history tid st (Except.error e)).1 = st ∧
      (fold_history tid st (Except.error e)).2 = [] ∧
      (summarizeRun tid st (Except.error e)).1.summary =
        some ((summarizeRun tid st (Except.error e)).2.1) ∧
      (summarizeRun tid st (Except.error e)).2.1 =
        (if 1000 < (summarizeConvo st).length
         then strTake (summarizeConvo st) 980 ++ "..." else summarizeConvo st) ∧
      ∀ (s' : Settings) (st' : DbState) (inp' : RespondInput)
        (loads' : String → Option Json) (sched' : Nat → AttemptResult)
        (n' : Nat) (sr' : Except String String) (mv' : Option String),
        (chat_stream loads' sched').2 = false →
        ∃ u, (respondModel s' st' inp'
                ⟨mv', Except.error e, loads', sched', n', sr'⟩).result = Except.ok u := by
  have hfold : fold_history tid st (Except.error e) = (st, []) := by
    simp only [fold_history]
    split <;> rfl
  refine ⟨by rw [hfold], by rw [hfold], rfl, ?_, ?_⟩
  · show (if 1000 < (if 1000 < (summarizeConvo st).length
          then strTake (summarizeConvo st) 980 ++ "..." else summarizeConvo st).length
        then _ else _) = _
    rw [if_neg]
    have := capIf_le (summarizeConvo st) 980 (by norm_num)
    omega
  · intro s' st' inp' loads' sched' n' sr' mv' h
    simp only [respondModel, h]
    exact ⟨_, rfl⟩

/-- C4 counterexample: with a prior summary "old" and a failing backend,
`summarize` replaces the stored summary by the fallback conversation log —
the prior value is not retained. -/
theorem C4_counterexample :
    stC4.summary = some "old" ∧
      (summarizeRun "t" stC4 (Except.error "boom")).1.summary = some "[user] hello" ∧
      some "[user] hello" ≠ (some "old" : Option String) :=
  ⟨rfl, by decide, by decide⟩

/-- The SSE payload of a single `"hi"` content delta, and its decoded JSON
value (the JSON text decoder is an oracle; `loadsC5` maps exactly this text
to its parse). -/
def payloadHi : String :=
  "\x7b\"choices\":[\x7b\"delta\":\x7b\"content\":\"hi\"\x7d\x7d]\x7d"

/-- The decoded form of `payloadHi`. -/
def hiObj : Json :=
  .obj [("choices", .arr [.obj [("delta", .obj [("content", .str "hi")])]])]

/-- JSON decoder oracle for the C5 run. -/
def loadsC5 : String → Option Json :=
  fun s => if s = payloadHi then some hiObj else none

/-- The C5 failing schedule: attempt 1 delivers one `"hi"` delta and then
fails mid-stream; attempt 2 succeeds with the same delta and `[DONE]`. -/
def schedC5 : Nat → AttemptResult := fun i =>
  if i = 1 then .streamFail [["data: " ++ payloadHi]]
  else if i = 2 then .streamOk [["data: " ++ payloadHi], ["data: [DONE]"]]
  else .connFail

/-- C5: the retry loop of `chat_stream` wraps the whole stream consumption,
so a mid-stream network failure on attempt 1 IS retried: attempt 1 yields
`"hi"` and fails after one delta (`processLines` = (["hi"], no-DONE)), the
request is re-issued, and the caller receives the duplicated deltas
`["hi", "hi"]` with a successful end — not the claimed `["hi"]` followed by
an error state with no re-issued request. -/
theorem C5_midstream_failure_is_retried :
    schedC5 1 = .streamFail [["data: " ++ payloadHi]] ∧
      processLines loadsC5 ["data: " ++ payloadHi] = (["hi"], false) ∧
      chat_stream loadsC5 schedC5 = (["hi", "hi"], false) ∧
      chat_stream loadsC5 schedC5 ≠ (["hi"], true) := by
  refine ⟨by decide, by decide, by decide, by decide⟩

/-- Each of the three attempts of one `chat_stream` call fails: either the
connection fails, or the stream fails mid-body without having reached a
`[DONE]` sentinel. -/
def attemptFails (loads : String → Option Json) : AttemptResult → Prop
  | .connFail => True
  | .streamFail chunks => (processLines loads chunks.flatten).2 = false
  | .streamOk _ => False

theorem chat_streamGo_fail_step (loads : String → Option Json) (acc : List String)
    (a : AttemptResult) (rest : List AttemptResult)
    (ha : attemptFails loads a) (hrest : rest.isEmpty = false) :
    ∃ acc', chat_streamGo loads acc (a :: rest) = chat_streamGo loads acc' rest := by
  cases a with
  | connFail => exact ⟨acc, by simp [chat_streamGo, hrest]⟩
  | streamFail chunks =>
    refine ⟨acc ++ (processLines loads chunks.flatten).1, ?_⟩
    simp only [chat_streamGo, attemptFails] at ha ⊢
    rw [ha]
    simp [hrest]
  | streamOk chunks => exact absurd ha (by simp [attemptFails])

theorem chat_streamGo_fail_last (loads : String → Option Json) (acc : List String)
    (a : AttemptResult) (ha : attemptFails loads a) :
    (chat_streamGo loads acc [a]).2 = true := by
  cases a with
  | connFail => simp [chat_streamGo]
  | streamFail chunks =>
    simp only [chat_streamGo, attemptFails] at ha ⊢
    rw [ha]
    simp
  | streamOk chunks => exact absurd ha (by simp [attemptFails])

/-- If all three attempts fail (never reaching `[DONE]`), the stream ends by
raising the last error. -/
theorem chat_stream_error_of_allFail (loads : String → Option Json)
    (sched : Nat → AttemptResult) (h1 : attemptFails loads (sched 1))
    (h2 : attemptFails loads (sched 2)) (h3 : attemptFails loads (sched 3)) :
    (chat_stream loads sched).2 = true := by
  obtain ⟨a1, e1⟩ := chat_streamGo_fail_step loads [] (sched 1) [sched 2, sched 3] h1 rfl
  obtain ⟨a2, e2⟩ := chat_streamGo_fail_step loads a1 (sched 2) [sched 3] h2 rfl
  rw [chat_stream, e1, e2]
  exact chat_streamGo_fail_last loads a2 (sched 3) h3

set_option maxRecDepth 4000 in
/-- C6: when all 3 backend attempts of the turn's streaming call fail, the
turn returns an error carrying a trace id and no responseId, and no
assistant Message is persisted for the thread; and in
`_post_json_with_retries`, after 3 failed attempts the LAST backend error is
what is raised. -/
theorem C6_backend_unavailable (s : Settings) (st : DbState) (inp : RespondInput)
    (orc : TurnOracles) (traceId : String)
    (sched2 : Nat → Except String Json) (e1 e2 e3 : String)
    (h1 : attemptFails orc.loads (orc.sched 1))
    (h2 : attemptFails orc.loads (orc.sched 2))
    (h3 : attemptFails orc.loads (orc.sched 3))
    (hp1 : sched2 1 = .error e1) (hp2 : sched2 2 = .error e2) (hp3 : sched2 3 = .error e3) :
    post_responses (respondModel s st inp orc) traceId inp.threadId =
        .error ⟨"internal error", traceId, none⟩ ∧
      (respondModel s st inp orc).ops.filter (isRoleInsert "assistant") = [] ∧
      post_json_with_retries sched2 = .error e3 := by
  have herr : (chat_stream orc.loads orc.sched).2 = true :=
    chat_stream_error_of_allFail orc.loads orc.sched h1 h2 h3
  have hturn : respondModel s st inp orc =
      { ops := (match orc.memoryValue with
                | some v => [DbOp.upsertProfile "user.name" v]
                | none => []) ++
          (if inp.store then [DbOp.insertMessage inp.threadId "user" inp.userText inp.userMsgId]
           else []) ++
          (ensure_budget s inp.threadId
            (if inp.store then { st with messages := st.messages ++ [⟨"user", inp.userText, none⟩] }
             else st) orc.foldReply).ops
        gatewayRequests := [(ensure_budget s inp.threadId
            (if inp.store then { st with messages := st.messages ++ [⟨"user", inp.userText, none⟩] }
             else st) orc.foldReply).chat ++ [⟨"user", inp.userText, none⟩]]
        result := .error "llm stream failed" } := by
    simp only [respondModel, herr, if_true]
  refine ⟨?_, ?_, ?_⟩
  · rw [post_responses, hturn]
  · rw [hturn]
    simp only [List.filter_append, List.append_eq_nil]
    refine ⟨⟨?_, ?_⟩, ?_⟩
    · cases orc.memoryValue <;> simp [isRoleInsert]
    · split <;> simp [isRoleInsert]
    · rcases ensure_budget_ops s inp.threadId
        (if inp.store then { st with messages := st.messages ++ [⟨"user", inp.userText, none⟩] }
         else st) orc.foldReply with hb | ⟨c, hb⟩ <;>
        rw [hb] <;> simp [isRoleInsert]
  · simp [post_json_with_retries, postJsonGo, hp1, hp2, hp3]

/-- Witness for C6: all three stream attempts are connection failures and
all three non-streaming attempts raise distinct errors. -/
theorem C6_backend_unavailable_witness :
    post_responses
        (respondModel defaultSettings ⟨none, none, []⟩ ⟨"t", "hi", true, "u1", "a1", "r1"⟩
          ⟨none, Except.error "down", (fun _ => none), (fun _ => .connFail), 0,
            Except.error "x"⟩) "trace-1" "t" =
      .error ⟨"internal error", "trace-1", none⟩ ∧
      (respondModel defaultSettings ⟨none, none, []⟩ ⟨"t", "hi", true, "u1", "a1", "r1"⟩
          ⟨none, Except.error "down", (fun _ => none), (fun _ => .connFail), 0,
            Except.error "x"⟩).ops.filter (isRoleInsert "assistant") = [] ∧
      post_json_with_retries
          (fun i => Except.error (if i = 1 then "e1" else if i = 2 then "e2" else "e3")) =
        .error "e3" :=
  C6_backend_unavailable defaultSettings ⟨none, none, []⟩ ⟨"t", "hi", true, "u1", "a1", "r1"⟩
    ⟨none, Except.error "down", (fun _ => none), (fun _ => .connFail), 0, Except.error "x"⟩
    "trace-1" (fun i => Except.error (if i = 1 then "e1" else if i = 2 then "e2" else "e3"))
    "e1" "e2" "e3" trivial trivial trivial rfl rfl rfl

/-- Every run of `maybe_call_one_tool` either returns the input list with
flag `False`, or the input list with exactly one appended tool-role message
and flag `True`, or raises (malformed truthy `tool_calls`). -/
theorem maybe_call_one_tool_cases (loads : String → Option Json)
    (invoke : List (String × Json) → Except String Json) (ms : List Msg) (probe : Json) :
    maybe_call_one_tool loads invoke ms probe = .ok (ms, false) ∨
      (∃ m : Msg, m.role = "tool" ∧
        maybe_call_one_tool loads invoke ms probe = .ok (ms ++ [m], true)) ∨
      ∃ e, maybe_call_one_tool loads invoke ms probe = .error e := by
  unfold maybe_call_one_tool
  split
  · exact Or.inl rfl
  · split
    · exact Or.inl rfl
    · split
      · split
        · split
          · dsimp only
            split
            · exact Or.inr (Or.inl ⟨_, rfl, rfl⟩)
            · exact Or.inl rfl
          · exact Or.inr (Or.inr ⟨_, rfl⟩)
        · exact Or.inr (Or.inr ⟨_, rfl⟩)
      · exact Or.inr (Or.inr ⟨_, rfl⟩)

/-- Both branches of `respond` issue exactly one gateway request: the single
`chat_stream` consumption of `_run_stream_collect`.  No probe for tool calls
exists on this path. -/
theorem respondModel_one_request (s : Settings) (st : DbState) (inp : RespondInput)
    (orc : TurnOracles) :
    (respondModel s st inp orc).gatewayRequests.length = 1 := by
  simp only [respondModel]
  split <;> rfl

/-- C10: `maybe_call_one_tool` never mutates the caller's message list: when
it returns flag `False` the returned list is the input list itself; when it
returns flag `True` the returned list is the input list plus exactly one
appended tool-role message; and every returned list has the input list as a
prefix.  (On a malformed truthy `tool_calls` value the source raises without
returning a list, which also leaves the input untouched.) -/
theorem C10_never_mutates (loads : String → Option Json)
    (invoke : List (String × Json) → Except String Json) (ms : List Msg) (probe : Json) :
    (∀ out, maybe_call_one_tool loads invoke ms probe = .ok (out, false) → out = ms) ∧
      (∀ out, maybe_call_one_tool loads invoke ms probe = .ok (out, true) →
        ∃ m : Msg, m.role = "tool" ∧ out = ms ++ [m]) ∧
      (∀ out b, maybe_call_one_tool loads invoke ms probe = .ok (out, b) → ms <+: out) := by
  rcases maybe_call_one_tool_cases loads invoke ms probe with h | ⟨m, hm, h⟩ | ⟨e, h⟩
  · refine ⟨?_, ?_, ?_⟩
    · intro out heq
      rw [h] at heq
      simp only [Except.ok.injEq, Prod.mk.injEq] at heq
      exact heq.1.symm
    · intro out heq
      rw [h] at heq
      simp at heq
    · intro out b heq
      rw [h] at heq
      simp only [Except.ok.injEq, Prod.mk.injEq] at heq
      rw [← heq.1]
  · refine ⟨?_, ?_, ?_⟩
    · intro out heq
      rw [h] at heq
      simp at heq
    · intro out heq
      rw [h] at heq
      simp only [Except.ok.injEq, Prod.mk.injEq] at heq
      exact ⟨m, hm, heq.1.symm⟩
    · intro out b heq
      rw [h] at heq
      simp only [Except.ok.injEq, Prod.mk.injEq] at heq
      rw [← heq.1]
      exact ⟨[m], rfl⟩
  · refine ⟨?_, ?_, ?_⟩
    · intro out heq
      rw [h] at heq
      exact absurd heq (by simp)
    · intro out heq
      rw [h] at heq
      exact absurd heq (by simp)
    · intro out b heq
      rw [h] at heq
      exact absurd heq (by simp)

/-- C2 (amended): given a probe reply whose first tool call names the
registered tool `vision_describe`, `maybe_call_one_tool` appends exactly one
tool-role message — whose content is the JSON-encoded invocation result, or
`{"error": message}` when validation/invocation raises — and returns flag
`True`, signalling the caller to re-issue exactly one gateway request with
the augmented list.  However, the orchestrator `respond` never invokes the
tool-interception step: it issues exactly ONE gateway request per turn
(every turn, regardless of the reply), so no follow-up gateway call is ever
made (`C2_counterexample`). -/
theorem C2_tool_interception (loads : String → Option Json)
    (invoke : List (String × Json) → Except String Json) (ms : List Msg)
    (probe c : Json) (cs : List Json) (cf ffields : List (String × Json))
    (h2 : c = .obj cf)
    (h1 : extractToolCalls probe = some (.arr (c :: cs)))
    (h3 : (jGet c "function").getD (.obj []) = .obj ffields)
    (h4 : jGet (.obj ffields) "name" = some (.str "vision_describe")) :
    (maybe_call_one_tool loads invoke ms probe =
        .ok (ms ++ [⟨"tool",
          dumpJson (toolCallResult invoke (toolArgsVal loads (jGet (.obj ffields) "arguments"))),
          some "vision_describe"⟩], true)) ∧
      ((∃ fs r, toolArgsVal loads (jGet (.obj ffields) "arguments") = Json.obj fs ∧
          invoke fs = .ok r ∧
          toolCallResult invoke (toolArgsVal loads (jGet (.obj ffields) "arguments")) = r) ∨
        (∃ e, toolCallResult invoke (toolArgsVal loads (jGet (.obj ffields) "arguments")) =
          Json.obj [("error", Json.str e)])) ∧
      ∀ (s' : Settings) (st' : DbState) (inp' : RespondInput) (orc' : TurnOracles),
        (respondModel s' st' inp' orc').gatewayRequests.length = 1 := by
  subst h2
  refine ⟨?_, ?_, fun s' st' inp' orc' => respondModel_one_request s' st' inp' orc'⟩
  · unfold maybe_call_one_tool
    rw [h1]
    simp only [jFalsy, List.isEmpty_cons, Bool.false_eq_true, if_false]
    rw [h3]
    dsimp only
    rw [h4]
    rfl
  · rcases hargs : toolArgsVal loads (jGet (.obj ffields) "arguments") with _ | b | n | sv | xs | fs
    · exact Or.inr ⟨_, rfl⟩
    · exact Or.inr ⟨_, rfl⟩
    · exact Or.inr ⟨_, rfl⟩
    · exact Or.inr ⟨_, rfl⟩
    · exact Or.inr ⟨_, rfl⟩
    · cases hinv : invoke fs with
      | ok r => exact Or.inl ⟨fs, r, rfl, hinv, by simp [toolCallResult, hinv]⟩
      | error e => exact Or.inr ⟨e, by simp [toolCallResult, hinv]⟩

/-- The `function` fields of the probe used by the C2 witness: the
registered tool name with a dict argument payload. -/
def fnC2 : List (String × Json) :=
  [("name", .str "vision_describe"),
   ("arguments", .obj [("image_url", .str "http://example.com/cat.png")])]

/-- The single tool-call object of the C2 witness probe. -/
def callC2 : List (String × Json) := [("function", .obj fnC2)]

/-- The probe used by the C2 witness: one tool call naming
`vision_describe`. -/
def probeC2 : Json :=
  .obj [("choices", .arr [.obj [("message", .obj [("tool_calls", .arr [.obj callC2])])]])]

/-- Witness for C2: the concrete probe `probeC2` appends exactly one
tool message and returns flag `True`. -/
theorem C2_tool_interception_witness :
    ∃ content, maybe_call_one_tool (fun _ => none) (fun _ => Except.ok (Json.obj []))
        [] probeC2 = Except.ok ([⟨"tool", content, some "vision_describe"⟩], true) :=
  ⟨_, (C2_tool_interception (fun _ => none) (fun _ => Except.ok (Json.obj [])) []
    probeC2 (.obj callC2) [] callC2 fnC2 rfl rfl rfl rfl).1⟩

/-- The SSE payload of a reply whose delta carries a `vision_describe` tool
call (and no content). -/
def tcPayload : String :=
  "\x7b\"choices\":[\x7b\"delta\":\x7b\"tool_calls\":[\x7b\"function\":\x7b\"name\":\"vision_describe\"\x7d\x7d]\x7d\x7d]\x7d"

/-- The decoded form of `tcPayload`. -/
def tcObj : Json :=
  .obj [("choices", .arr [.obj [("delta", .obj [("tool_calls",
    .arr [.obj [("function", .obj [("name", .str "vision_describe")])]])])]])]

/-- JSON decoder oracle for the C2 counterexample run. -/
def loadsC2 : String → Option Json :=
  fun s => if s = tcPayload then some tcObj else none

/-- Streaming schedule for the C2 counterexample run: one successful attempt
delivering the tool-call-bearing event. -/
def schedC2 : Nat → AttemptResult := fun _ => .streamOk [["data: " ++ tcPayload]]

/-- The C2 counterexample turn. -/
def turnC2 : TurnOutcome :=
  respondModel defaultSettings ⟨none, none, []⟩ ⟨"t1", "hi", true, "u1", "a1", "r1"⟩
    ⟨none, Except.error "nofold", loadsC2, schedC2, 0, Except.error "nosum"⟩

set_option maxRecDepth 4000 in
/-- C2 counterexample: a turn whose gateway reply carries exactly one
registered tool call still issues exactly ONE gateway request, persists no
tool-role message, and completes — no follow-up gateway call with an
augmented list is made, because `respond` never runs the interception
step. -/
theorem C2_counterexample :
    turnC2.gatewayRequests.length = 1 ∧
      turnC2.ops.filter (isRoleInsert "tool") = [] ∧
      turnC2.result = Except.ok ("u1", "r1", "", ⟨47, 1, 48⟩) := by
  refine ⟨by decide, by decide, by rfl⟩

theorem orderedInsert_append {α : Type} (r : α → α → Prop) [DecidableRel r] (a : α) :
    ∀ l : List α, (∀ b ∈ l, ¬ r a b) → l.orderedInsert r a = l ++ [a] := by
  intro l
  induction l with
  | nil => intro _; rfl
  | cons b l ih =>
    intro h
    rw [List.orderedInsert, if_neg (h b (by simp)), ih (fun c hc => h c (by simp [hc]))]
    rfl

/-- On a strictly increasing (by `createdAt`) insertion sequence, the stable
descending sort is exactly the reversed sequence. -/
theorem sortDesc_of_strictMono :
    ∀ msgs : List MsgRow, List.Pairwise (fun a b => a.createdAt < b.createdAt) msgs →
      msgs.insertionSort createdDesc = msgs.reverse := by
  intro msgs h
  induction msgs with
  | nil => rfl
  | cons a l ih =>
    rw [List.insertionSort, ih (List.Pairwise.of_cons h), orderedInsert_append]
    · rw [List.reverse_cons]
    · intro b hb
      have hab := (List.pairwise_cons.mp h).1 b (List.mem_reverse.mp hb)
      show ¬ b.createdAt ≤ a.createdAt
      omega

/-- C8 (amended): inserting N messages into a thread and reading back with
limit M ≥ N returns exactly those N messages sorted chronologically by
timestamp; when the timestamps are strictly increasing this is exactly the
insertion order, but equal-timestamp ties come back in REVERSE insertion
order (`C8_counterexample`): the query sorts by `created_at DESC` (modelled
as a stable sort of the scan order — SQLite leaves tie order unspecified)
and the caller reverses, flipping each tie group. -/
theorem C8_round_trip (msgs : List MsgRow) (tid : String) (M : Nat)
    (hT : ∀ m ∈ msgs, m.threadId = tid) (hM : msgs.length ≤ M) :
    (readBack msgs tid M).Perm msgs ∧
      List.Pairwise (fun a b => a.createdAt ≤ b.createdAt) (readBack msgs tid M) ∧
      (List.Pairwise (fun a b => a.createdAt < b.createdAt) msgs →
        readBack msgs tid M = msgs) := by
  have hfilter : msgs.filter (fun r => r.threadId = tid) = msgs := by
    rw [List.filter_eq_self]
    intro a ha
    simpa using hT a ha
  have hlen : (List.insertionSort createdDesc msgs).length = msgs.length :=
    List.length_insertionSort createdDesc msgs
  have htake : (List.insertionSort createdDesc msgs).take M =
      List.insertionSort createdDesc msgs :=
    List.take_of_length_le (by rw [hlen]; exact hM)
  have hsorted : List.Sorted createdDesc (List.insertionSort createdDesc msgs) :=
    List.sorted_insertionSort createdDesc msgs
  unfold readBack get_thread_messages
  rw [hfilter, htake]
  refine ⟨?_, ?_, ?_⟩
  · exact (List.reverse_perm _).trans (List.perm_insertionSort createdDesc msgs)
  · rw [List.pairwise_reverse]
    exact hsorted
  · intro hstrict
    rw [sortDesc_of_strictMono msgs hstrict, List.reverse_reverse]

/-- Two C8 rows sharing one `created_at` tick, inserted as m1 then m2. -/
def rowA : MsgRow := ⟨"m1", "t", "user", "x", 5⟩

/-- See `rowA`. -/
def rowB : MsgRow := ⟨"m2", "t", "user", "y", 5⟩

/-- A later C8 row with a strictly larger timestamp. -/
def rowC : MsgRow := ⟨"m3", "t", "user", "z", 7⟩

/-- C8 counterexample: two messages inserted in the same `created_at` tick
come back in REVERSE insertion order — the claimed tie-breaking by insertion
order does not hold for the `ORDER BY created_at DESC` + reverse
read-back. -/
theorem C8_counterexample :
    rowA.createdAt = rowB.createdAt ∧
      readBack [rowA, rowB] "t" 2 = [rowB, rowA] ∧
      readBack [rowA, rowB] "t" 2 ≠ [rowA, rowB] := by
  refine ⟨by decide, by decide, by decide⟩

/-- Witness for C8: two strictly increasing rows round-trip in insertion
order with limit 5 ≥ 2. -/
theorem C8_round_trip_witness :
    (∀ m ∈ [rowA, rowC], m.threadId = "t") ∧
      ([rowA, rowC] : List MsgRow).length ≤ 5 ∧
      readBack [rowA, rowC] "t" 5 = [rowA, rowC] :=
  ⟨by decide, by decide,
    (C8_round_trip [rowA, rowC] "t" 5 (by decide) (by decide)).2.2 (by decide)⟩

theorem applyResponseOp_other (rows : List ResponseRow) (op : DbOp)
    (h : isResponseOp op = false) : applyResponseOp rows op = rows := by
  cases op with
  | insertResponse a b c d => simp [isResponseOp] at h
  | updateResponseOutput a b c => simp [isResponseOp] at h
  | insertMessage a b c d => rfl
  | upsertSummary a b => rfl
  | upsertProfile a b => rfl

/-- Replaying the `responses`-table effect of a write sequence only depends
on its `responses`-table writes. -/
theorem foldl_applyResponseOp_filter :
    ∀ (ops : List DbOp) (rows : List ResponseRow),
      ops.foldl applyResponseOp rows = (ops.filter isResponseOp).foldl applyResponseOp rows := by
  intro ops
  induction ops with
  | nil => intro _; rfl
  | cons op rest ih =>
    intro rows
    rw [List.foldl_cons, List.filter_cons]
    cases hop : isResponseOp op
    · simp only [Bool.false_eq_true, if_false]
      rw [applyResponseOp_other rows op hop]
      exact ih rows
    · simp only [if_true]
      rw [List.foldl_cons]
      exact ih _

theorem filter_resp_memOps (mv : Option String) :
    (match mv with
      | some v => [DbOp.upsertProfile "user.name" v]
      | none => []).filter isResponseOp = [] := by
  cases mv <;> rfl

theorem filter_resp_userOps (c : Prop) [Decidable c] (a b d e : String) :
    (if c then [DbOp.insertMessage a b d e] else []).filter isResponseOp = [] := by
  split <;> rfl

theorem filter_resp_budget (s : Settings) (tid : String) (st : DbState)
    (r : Except String String) :
    (ensure_budget s tid st r).ops.filter isResponseOp = [] := by
  rcases ensure_budget_ops s tid st r with h | ⟨c, h⟩ <;> rw [h] <;> rfl

theorem filter_resp_sumOps (c : Prop) [Decidable c] (tid : String) (st : DbState)
    (r : Except String String) :
    (if c then (summarizeRun tid st r).2.2 else []).filter isResponseOp = [] := by
  split <;> rfl

set_option maxRecDepth 4000 in
/-- C9 (amended): the output-message reference of a Response is NOT set
atomically with its status: in the non-streaming path `respond`, the row is
first inserted with status `"completed"` and a NULL reference, and the
reference is set by a second, separate update — the completed-with-null
state is observable between the two writes; in the streaming path
`respond_stream`, `update_response_output` is never called, so the row keeps
status `"completed"` with a NULL output reference permanently
(`C9_counterexample`). -/
theorem C9_output_reference_two_steps (s : Settings) (st : DbState) (inp : RespondInput)
    (orc : TurnOracles) (wsId dbRid : String)
    (hOk : (chat_stream orc.loads orc.sched).2 = false) :
    (respondModel s st inp orc).ops.filter isResponseOp =
        [DbOp.insertResponse inp.respId inp.threadId inp.userMsgId "completed",
         DbOp.updateResponseOutput inp.respId inp.assistantMsgId "completed"] ∧
      replayResponses (respondModel s st inp orc).ops =
        [⟨inp.respId, inp.threadId, inp.userMsgId, "completed", some inp.assistantMsgId⟩] ∧
      replayResponses [DbOp.insertResponse inp.respId inp.threadId inp.userMsgId "completed"] =
        [⟨inp.respId, inp.threadId, inp.userMsgId, "completed", none⟩] ∧
      (respondStreamModel s st inp wsId dbRid orc).ops.filter isResponseOp =
        [DbOp.insertResponse dbRid inp.threadId inp.userMsgId "completed"] ∧
      replayResponses (respondStreamModel s st inp wsId dbRid orc).ops =
        [⟨dbRid, inp.threadId, inp.userMsgId, "completed", none⟩] := by
  have hops1 : (respondModel s st inp orc).ops.filter isResponseOp =
      [DbOp.insertResponse inp.respId inp.threadId inp.userMsgId "completed",
       DbOp.updateResponseOutput inp.respId inp.assistantMsgId "completed"] := by
    simp only [respondModel, hOk, Bool.false_eq_true, if_false]
    simp only [List.filter_append, filter_resp_memOps, filter_resp_userOps,
      filter_resp_budget, filter_resp_sumOps, List.nil_append, List.append_nil]
    rfl
  have hops2 : (respondStreamModel s st inp wsId dbRid orc).ops.filter isResponseOp =
      [DbOp.insertResponse dbRid inp.threadId inp.userMsgId "completed"] := by
    simp only [respondStreamModel, hOk, Bool.false_eq_true, if_false]
    simp only [List.filter_append, filter_resp_memOps, filter_resp_budget,
      List.nil_append, List.append_nil]
    rfl
  refine ⟨hops1, ?_, rfl, hops2, ?_⟩
  · rw [replayResponses, foldl_applyResponseOp_filter, hops1]
    simp [applyResponseOp, replayResponses]
  · rw [replayResponses, foldl_applyResponseOp_filter, hops2]
    rfl

/-- The concrete streaming turn of the C9 instances: one successful stream
attempt with no deltas. -/
def streamTurnC9 : StreamTurn :=
  respondStreamModel defaultSettings ⟨none, none, []⟩ ⟨"t1", "hi", true, "u1", "a1", "r1"⟩
    "w1" "r2"
    ⟨none, Except.error "nofold", (fun _ => none), (fun _ => .streamOk []), 0,
      Except.error "nosum"⟩

set_option maxRecDepth 4000 in
/-- C9 counterexample: after a completed streaming turn, the stored Response
row has status `"completed"` and a NULL output-message reference — an
observable (indeed permanent) state the claim rules out. -/
theorem C9_counterexample :
    replayResponses streamTurnC9.ops = [⟨"r2", "t1", "u1", "completed", none⟩] ∧
      streamTurnC9.failed = false := by
  refine ⟨by decide, by decide⟩

set_option maxRecDepth 4000 in
/-- Witness for C9: a concrete successful non-streaming turn issues the
insert (completed, NULL reference) followed by the separate update. -/
theorem C9_output_reference_two_steps_witness :
    (chat_stream (fun _ => none) (fun _ => AttemptResult.streamOk [])).2 = false ∧
      (respondModel defaultSettings ⟨none, none, []⟩ ⟨"t1", "hi", true, "u1", "a1", "r1"⟩
          ⟨none, Except.error "nofold", (fun _ => none), (fun _ => .streamOk []), 0,
            Except.error "nosum"⟩).ops.filter isResponseOp =
        [DbOp.insertResponse "r1" "t1" "u1" "completed",
         DbOp.updateResponseOutput "r1" "a1" "completed"] :=
  ⟨by decide,
    (C9_output_reference_two_steps defaultSettings ⟨none, none, []⟩
      ⟨"t1", "hi", true, "u1", "a1", "r1"⟩
      ⟨none, Except.error "nofold", (fun _ => none), (fun _ => .streamOk []), 0,
        Except.error "nosum"⟩ "w1" "r2" (by decide)).1⟩

/-- Witness for C10: a probe with no tool call returns the input unchanged. -/
theorem C10_never_mutates_witness :
    maybe_call_one_tool (fun _ => none) (fun _ => Except.ok (Json.obj [])) [] Json.null =
        Except.ok ([], false) ∧
      ([] : List Msg) = [] :=
  ⟨rfl,
    (C10_never_mutates (fun _ => none) (fun _ => Except.ok (Json.obj [])) [] Json.null).1 [] rfl⟩

/-- Witness for C4: concrete fold failure retains the snapshot, and a
concrete turn with a failing fold still completes. -/
theorem C4_fold_failure_keeps_summary_witness :
    (fold_history "t" stC4 (Except.error "boom")).1 = stC4 ∧
      ∃ u, (respondModel defaultSettings ⟨none, none, []⟩
              ⟨"t", "hi", true, "u1", "a1", "r1"⟩
              ⟨none, Except.error "boom", (fun _ => none), (fun _ => .streamOk []), 0,
                Except.error "x"⟩).result = Except.ok u := by
  have c := C4_fold_failure_keeps_summary "t" stC4 "boom"
  exact ⟨c.1, (C4_fold_failure_keeps_summary "t" ⟨none, none, []⟩ "boom").2.2.2.2
    defaultSettings ⟨none, none, []⟩ ⟨"t", "hi", true, "u1", "a1", "r1"⟩
    (fun _ => none) (fun _ => .streamOk []) 0 (Except.error "x") none (by decide)⟩

end LocalAi
